import Mathlib

/-!
Verification of the `vsm` (vim session manager) command-line utility.

The development shallowly embeds the program:

* `Config` constants come from `vim_session_manager/__init__.py`.
* `ThreadSafeMeta.__call__` (the thread-safe singleton metaclass) is embedded
  as an atomic step `metaCall` on an explicit `MetaState`: the whole
  check-and-create body of the Python method runs inside `with cls._lock`,
  so any concurrent execution serialises into a sequence of such atomic
  steps; `lockAcquisitions` counts lock entries, one per call, exactly as
  the `with cls._lock:` statement at the top of the method body.
* The entry point `main` comes from `vsm/main.py`.  Its effects (log lines,
  filesystem operations, confirmation prompts, executed shell commands) are
  recorded in a `Trace`; the filesystem is a list of existing file paths.
  `vsm/main.py` contains no prompt/input call at all, so no branch of the
  embedded `main` ever appends to `Trace.prompts`.
* The repository does not ship `vsm/session_manager.py`, `vsm/utils.py`,
  `vsm/cli.py` or `vsm/log.py`; those components are modelled from the
  specification, each with a doc comment saying so.
-/

namespace Vsm

/-- A filesystem path, modelled as its string representation. -/
abbrev Path := String

/-- Filesystem operations the tool can perform, recorded in the trace. -/
inductive FsOp
  | statFile (p : Path)
  | readDir (d : Path)
  | unlink (p : Path)
  deriving DecidableEq, Repr

/-- Log severities of the `Log` helper (`Log.info` / `Log.warn` / `Log.error`). -/
inductive LogLevel
  | info
  | warn
  | error
  deriving DecidableEq, Repr

namespace Config

/-- `Config.__version` from `vim_session_manager/__init__.py`. -/
def version : String := "0.1.0"

/-- `Config.__package` from `vim_session_manager/__init__.py` (`__package__`). -/
def package : String := "vim_session_manager"

/-- `Config.__executable` from `vim_session_manager/__init__.py`. -/
def executable : String := "vsm"

/-- `Config.__config_dir` from `vim_session_manager/__init__.py`:
`Path.home() / ".config" / __package`. -/
def config_dir (home : Path) : Path := home ++ "/.config/" ++ package

/-- `Config.__vsm_env_var` from `vim_session_manager/__init__.py`. -/
def vsm_env_var : String := "VIM_SESSIONS"

/-- `Config.__default_sessions_directory` from `vim_session_manager/__init__.py`:
`Path.home() / ".config" / "vim_sessions"`. -/
def default_sessions_directory (home : Path) : Path :=
  home ++ "/.config/vim_sessions"

end Config

/-- A constructed singleton instance: its identity (`id`, the construction
counter when it was built) and the argument list its `__init__` received. -/
structure Instance where
  id : Nat
  initArgs : List Nat
  deriving DecidableEq, Repr

/-- The state of `ThreadSafeMeta`: the `_instances` dictionary (class key to
instance), a fresh-identity counter, and the number of times `_lock` has been
acquired. -/
structure MetaState where
  instances : List (Nat × Instance)
  nextId : Nat
  lockAcquisitions : Nat
  deriving DecidableEq, Repr

/-- The state at program launch: no singleton instance yet. -/
def initialMetaState : MetaState :=
  { instances := [], nextId := 0, lockAcquisitions := 0 }

/-- Dictionary lookup in the `_instances` dict. -/
def findInstance : List (Nat × Instance) → Nat → Option Instance
  | [], _ => none
  | (c, i) :: rest, cls => if cls = c then some i else findInstance rest cls

/-- `ThreadSafeMeta.__call__` from `vim_session_manager/__init__.py`.  The
method body is `with cls._lock: if cls not in cls._instances: instance =
super().__call__(*args, **kwargs); cls._instances[cls] = instance` followed by
`return cls._instances[cls]`.  The lock is acquired unconditionally on every
call (there is no check before the `with` statement), so `lockAcquisitions`
always increases by one; the check-and-create runs inside the critical
section, making each call one atomic step. -/
def metaCall (s : MetaState) (cls : Nat) (args : List Nat) : MetaState × Instance :=
  let s1 : MetaState := { s with lockAcquisitions := s.lockAcquisitions + 1 }
  match findInstance s1.instances cls with
  | some inst => (s1, inst)
  | none =>
      let inst : Instance := { id := s1.nextId, initArgs := args }
      ({ s1 with instances := (cls, inst) :: s1.instances, nextId := s1.nextId + 1 }, inst)

/-- Run a serialised sequence of `__call__` steps (each a (class, args) pair);
serialisation of concurrent callers is justified by the lock around the whole
method body. -/
def runCalls (s : MetaState) : List (Nat × List Nat) → MetaState
  | [] => s
  | (c, a) :: rest => runCalls (metaCall s c a).1 rest

/-- Environment-variable lookup (`os.environ.get`), over an association list. -/
def lookupEnv : List (String × String) → String → Option String
  | [], _ => none
  | (k, v) :: rest, n => if n = k then some v else lookupEnv rest n

/-- Modelled from the spec: `vsm/session_manager.py` is not under `src/`.
Spec 4.3: `resolveSessionsDirectory() -> Path`: reads the configured
environment variable; if set and non-empty, use it as the directory;
otherwise use the default sessions directory from Config. -/
def resolve_sessions_directory (envVars : List (String × String)) (home : Path) : Path :=
  match lookupEnv envVars Config.vsm_env_var with
  | some v => if v = "" then Config.default_sessions_directory home else v
  | none => Config.default_sessions_directory home

/-- The typed failure of session resolution (spec 7: `SessionNotFound`). -/
inductive SessionError
  | sessionNotFound (name : String)
  deriving DecidableEq, Repr

/-- Modelled from the spec: the user-facing message logged for a session
resolution failure (`Log.error(e)` in `vsm/main.py`). -/
def sessionErrorMessage : SessionError → String
  | .sessionNotFound n => "Session not found: " ++ n

/-- Modelled from the spec: `vsm/session_manager.py` is not under `src/`.
Spec 4.3 / 9: `openSession(path)` treats `path` as a reference that, if it
already exists as given, is used directly; otherwise it is resolved relative
to the sessions directory; returns the resolved existing path, or
`SessionNotFound` if the file does not exist on disk.  The second component
records the existence checks performed against the filesystem. -/
def open_session (fs : List Path) (dir : Path) (name : String) :
    Except SessionError Path × List FsOp :=
  if name ∈ fs then (.ok name, [.statFile name])
  else
    let joined := dir ++ "/" ++ name
    if joined ∈ fs then (.ok joined, [.statFile name, .statFile joined])
    else (.error (.sessionNotFound name), [.statFile name, .statFile joined])

/-- Modelled from the spec: `vsm/session_manager.py` is not under `src/`.
Spec 4.3: `removeSession(path)` has identical resolution/validation to
`openSession`; on success returns the resolved path but performs no
deletion. -/
def remove_session (fs : List Path) (dir : Path) (name : String) :
    Except SessionError Path × List FsOp :=
  open_session fs dir name

/-- True iff `f` lies directly inside directory `dir` (no recursion into
subdirectories). -/
def is_direct_child (dir f : Path) : Bool :=
  (dir ++ "/").isPrefixOf f && !((f.drop (dir.length + 1)).contains '/')

/-- Modelled from the spec: `vsm/session_manager.py` is not under `src/`.
Spec 4.3: `listSessions()` produces the session file paths found directly
inside the sessions directory; a missing directory behaves as an empty
listing. -/
def list_sessions (fs : List Path) (dir : Path) : List Path :=
  fs.filter (fun f => is_direct_child dir f)

/-- Modelled from the spec: `vsm/utils.py` (`ShellManager`) is not under
`src/`.  Spec 4.2: `isInstalled(name)` is true iff an executable with that
name is resolvable on the current search path (`installed` lists those). -/
def is_installed (installed : List String) (name : String) : Bool :=
  installed.contains name

/-- The `Cli` options object (modelled from the spec: `vsm/cli.py` is not
under `src/`; field names follow their uses in `vsm/main.py`). -/
structure Args where
  list_sessions : Bool
  remove_session : Option String
  open_session : Option String
  the_current_state_of_things : Bool
  deriving DecidableEq, Repr

/-- The ambient process state `main` runs against: executables resolvable on
the search path, the filesystem (existing files), environment variables, the
home directory, the parsed CLI arguments, and the success/failure outcome of
shell commands (spec 4.2: `execute` succeeds iff the child exits 0). -/
structure Env where
  installed : List String
  fs : List Path
  envVars : List (String × String)
  home : Path
  args : Args
  shellOk : String → Bool

/-- The observable effects of one `main` invocation, in order within each
kind: log lines, confirmation prompts shown to the user (no code path in
`vsm/main.py` issues one — the yes/no prompt is a TODO comment), filesystem
operations, and executed shell command lines. -/
structure Trace where
  logs : List (LogLevel × String)
  prompts : List String
  fsOps : List FsOp
  executed : List String
  deriving DecidableEq, Repr

/-- The result of one `main` invocation: exit status, effect trace, and the
filesystem after the run. -/
structure MainResult where
  exit : Nat
  trace : Trace
  fs : List Path
  deriving DecidableEq, Repr

/-- Modelled from the spec: the message `ShellManager.execute` attaches to a
failed command (spec 4.2: a failure carrying a human-readable message). -/
def executionFailureMessage (cmd : String) : String :=
  "command failed: " ++ cmd

/-- `main` from `vsm/main.py`: preflight editor check, then the `if`/`elif`
dispatch on `cli.args` (list, remove, open, status, no-args fallback), with
the final `return 0` fall-through for the branches that do not return
early. -/
def main (env : Env) : MainResult :=
  if !(is_installed env.installed "nvim" || is_installed env.installed "vim") then
    { exit := 1,
      trace := { logs := [(.error, "No variant of vim was found on your system")],
                 prompts := [], fsOps := [], executed := [] },
      fs := env.fs }
  else
    let dir := resolve_sessions_directory env.envVars env.home
    if env.args.list_sessions then
      { exit := 0,
        trace := { logs := (list_sessions env.fs dir).map (fun f => (LogLevel.info, f)),
                   prompts := [], fsOps := [FsOp.readDir dir], executed := [] },
        fs := env.fs }
    else
      match env.args.remove_session with
      | some name =>
          let res := remove_session env.fs dir name
          match res.1 with
          | .ok value =>
              { exit := 0,
                trace := { logs := [(.warn, "Removing session -> " ++ value),
                                    (.info, "Done..")],
                           prompts := [], fsOps := res.2 ++ [FsOp.unlink value],
                           executed := [] },
                fs := env.fs.erase value }
          | .error e =>
              { exit := 1,
                trace := { logs := [(.error, sessionErrorMessage e)],
                           prompts := [], fsOps := res.2, executed := [] },
                fs := env.fs }
      | none =>
          match env.args.open_session with
          | some name =>
              let res := open_session env.fs dir name
              match res.1 with
              | .ok value =>
                  let cmd := "nvim -S " ++ value
                  if env.shellOk cmd then
                    { exit := 0,
                      trace := { logs := [(.info, "Loading session -> " ++ value)],
                                 prompts := [], fsOps := res.2, executed := [cmd] },
                      fs := env.fs }
                  else
                    { exit := 1,
                      trace := { logs := [(.info, "Loading session -> " ++ value),
                                          (.error, executionFailureMessage cmd)],
                                 prompts := [], fsOps := res.2, executed := [cmd] },
                      fs := env.fs }
              | .error e =>
                  { exit := 1,
                    trace := { logs := [(.error, sessionErrorMessage e)],
                               prompts := [], fsOps := res.2, executed := [] },
                    fs := env.fs }
          | none =>
              if env.args.the_current_state_of_things then
                { exit := 0,
                  trace := { logs := [(.warn, "This feature is currently under development")],
                             prompts := [], fsOps := [], executed := [] },
                  fs := env.fs }
              else
                { exit := 1,
                  trace := { logs := [(.error,
                      "No arguments give, please use `" ++ Config.package
                        ++ " --help` for usage information")],
                             prompts := [], fsOps := [], executed := [] },
                  fs := env.fs }

/-- The five branches of the entry point's `if`/`elif` dispatch. -/
inductive Branch
  | listB
  | removeB (name : String)
  | openB (name : String)
  | statusB
  | noneB
  deriving DecidableEq, Repr

/-- The branch selected by the entry point's `if`/`elif` chain: the fixed
priority order is list, then remove, then open, then status, then the
no-arguments fallback, and the first matching flag wins. -/
def selectBranch (a : Args) : Branch :=
  if a.list_sessions then .listB
  else
    match a.remove_session with
    | some n => .removeB n
    | none =>
        match a.open_session with
        | some n => .openB n
        | none => if a.the_current_state_of_things then .statusB else .noneB

/-- The body of one single dispatch branch of `main`, taken verbatim from the
corresponding arm of the `if`/`elif` chain in `vsm/main.py`. -/
def runBranch (env : Env) : Branch → MainResult
  | .listB =>
      let dir := resolve_sessions_directory env.envVars env.home
      { exit := 0,
        trace := { logs := (list_sessions env.fs dir).map (fun f => (LogLevel.info, f)),
                   prompts := [], fsOps := [FsOp.readDir dir], executed := [] },
        fs := env.fs }
  | .removeB name =>
      let dir := resolve_sessions_directory env.envVars env.home
      let res := remove_session env.fs dir name
      (match res.1 with
      | .ok value =>
          { exit := 0,
            trace := { logs := [(.warn, "Removing session -> " ++ value),
                                (.info, "Done..")],
                       prompts := [], fsOps := res.2 ++ [FsOp.unlink value],
                       executed := [] },
            fs := env.fs.erase value }
      | .error e =>
          { exit := 1,
            trace := { logs := [(.error, sessionErrorMessage e)],
                       prompts := [], fsOps := res.2, executed := [] },
            fs := env.fs })
  | .openB name =>
      let dir := resolve_sessions_directory env.envVars env.home
      let res := open_session env.fs dir name
      (match res.1 with
      | .ok value =>
          let cmd := "nvim -S " ++ value
          if env.shellOk cmd then
            { exit := 0,
              trace := { logs := [(.info, "Loading session -> " ++ value)],
                         prompts := [], fsOps := res.2, executed := [cmd] },
              fs := env.fs }
          else
            { exit := 1,
              trace := { logs := [(.info, "Loading session -> " ++ value),
                                  (.error, executionFailureMessage cmd)],
                         prompts := [], fsOps := res.2, executed := [cmd] },
              fs := env.fs }
      | .error e =>
          { exit := 1,
            trace := { logs := [(.error, sessionErrorMessage e)],
                       prompts := [], fsOps := res.2, executed := [] },
            fs := env.fs })
  | .statusB =>
      { exit := 0,
        trace := { logs := [(.warn, "This feature is currently under development")],
                   prompts := [], fsOps := [], executed := [] },
        fs := env.fs }
  | .noneB =>
      { exit := 1,
        trace := { logs := [(.error,
            "No arguments give, please use `" ++ Config.package
              ++ " --help` for usage information")],
                   prompts := [], fsOps := [], executed := [] },
        fs := env.fs }

/-! ### Sample environments used by witnesses -/

/-- An environment with an editor installed and no flags supplied. -/
def envNoFlags : Env :=
  { installed := ["nvim"], fs := ["/h/.config/vim_sessions/a.vim"], envVars := [],
    home := "/h",
    args := { list_sessions := false, remove_session := none,
              open_session := none, the_current_state_of_things := false },
    shellOk := fun _ => true }

/-- An environment with no editor installed and every flag supplied. -/
def envNoEditor : Env :=
  { installed := ["ls"], fs := ["/h/.config/vim_sessions/a.vim"], envVars := [],
    home := "/h",
    args := { list_sessions := true, remove_session := some "a.vim",
              open_session := some "a.vim", the_current_state_of_things := true },
    shellOk := fun _ => true }

/-- An environment removing the existing session `a.vim`. -/
def envRemove : Env :=
  { installed := ["nvim"], fs := ["/h/.config/vim_sessions/a.vim"], envVars := [],
    home := "/h",
    args := { list_sessions := false, remove_session := some "a.vim",
              open_session := none, the_current_state_of_things := false },
    shellOk := fun _ => true }

/-- An environment opening the existing session `a.vim`, with a shell whose
commands succeed. -/
def envOpen : Env :=
  { installed := ["nvim"], fs := ["/h/.config/vim_sessions/a.vim"], envVars := [],
    home := "/h",
    args := { list_sessions := false, remove_session := none,
              open_session := some "a.vim", the_current_state_of_things := false },
    shellOk := fun _ => true }

/-- An environment with both the list flag and a remove argument supplied. -/
def envListAndRemove : Env :=
  { installed := ["vim"], fs := ["/h/.config/vim_sessions/a.vim"], envVars := [],
    home := "/h",
    args := { list_sessions := true, remove_session := some "a.vim",
              open_session := some "a.vim", the_current_state_of_things := true },
    shellOk := fun _ => true }

/-! ### Lemmas about the singleton metaclass -/

lemma metaCall_lock (s : MetaState) (c : Nat) (a : List Nat) :
    (metaCall s c a).1.lockAcquisitions = s.lockAcquisitions + 1 := by
  unfold metaCall
  cases h : findInstance s.instances c <;> simp [h]

lemma metaCall_found (s : MetaState) (c : Nat) (a : List Nat) (i : Instance)
    (h : findInstance s.instances c = some i) :
    (metaCall s c a).2 = i ∧
    (metaCall s c a).1.instances = s.instances ∧
    (metaCall s c a).1.nextId = s.nextId := by
  unfold metaCall
  simp [h]

lemma metaCall_self (s : MetaState) (c : Nat) (a : List Nat) :
    findInstance (metaCall s c a).1.instances c = some (metaCall s c a).2 := by
  unfold metaCall
  cases h : findInstance s.instances c with
  | some i => simp [h]
  | none => simp [h, findInstance]

lemma metaCall_mono (s : MetaState) (c c2 : Nat) (a : List Nat) (i : Instance)
    (h : findInstance s.instances c = some i) :
    findInstance (metaCall s c2 a).1.instances c = some i := by
  unfold metaCall
  cases h2 : findInstance s.instances c2 with
  | some j => simp [h2, h]
  | none =>
      have hc : c ≠ c2 := by
        intro hh
        rw [hh] at h
        rw [h] at h2
        exact Option.noConfusion h2
      simp [h2, findInstance, hc, h]

lemma runCalls_mono (ops : List (Nat × List Nat)) (s : MetaState) (c : Nat)
    (i : Instance) (h : findInstance s.instances c = some i) :
    findInstance (runCalls s ops).instances c = some i := by
  induction ops generalizing s with
  | nil => simpa [runCalls] using h
  | cons p rest ih =>
      obtain ⟨c2, a⟩ := p
      simp only [runCalls]
      exact ih _ (metaCall_mono _ _ _ _ _ h)

/-- C7: the configuration singleton is constructed at most once per process —
whatever calls happen before a call to class `c` with args `a` and between it
and a later call to `c` with args `b` (i.e. under every serialisation the lock
enforces, concurrent first calls included), the later call returns the
identical instance, performs no new construction (`nextId` is unchanged), and
the stored instance is never mutated or replaced after first construction. -/
theorem config_singleton_constructed_once (pre mid : List (Nat × List Nat))
    (c : Nat) (a b : List Nat) :
    (metaCall (runCalls (metaCall (runCalls initialMetaState pre) c a).1 mid) c b).2
      = (metaCall (runCalls initialMetaState pre) c a).2 ∧
    (metaCall (runCalls (metaCall (runCalls initialMetaState pre) c a).1 mid) c b).1.nextId
      = (runCalls (metaCall (runCalls initialMetaState pre) c a).1 mid).nextId ∧
    findInstance (runCalls (metaCall (runCalls initialMetaState pre) c a).1 mid).instances c
      = some (metaCall (runCalls initialMetaState pre) c a).2 := by
  have h1 := metaCall_self (runCalls initialMetaState pre) c a
  have h2 := runCalls_mono mid _ c _ h1
  exact ⟨(metaCall_found _ c b _ h2).1, (metaCall_found _ c b _ h2).2.2, h2⟩

/-- C8 counterexample: the claim says a call made after the instance exists
does not acquire the lock, so after a first call (one acquisition) a second
call to the same class should leave the acquisition count at 1.  In the code
the `with cls._lock:` statement is the first statement of
`ThreadSafeMeta.__call__` — there is no check before it — so the second call
raises the count to 2. -/
theorem second_call_acquires_lock_counterexample :
    (metaCall initialMetaState 0 []).1.lockAcquisitions = 1 ∧
    (metaCall (metaCall initialMetaState 0 []).1 0 []).1.lockAcquisitions = 2 ∧
    ¬ (metaCall (metaCall initialMetaState 0 []).1 0 []).1.lockAcquisitions = 1 := by
  refine ⟨rfl, rfl, ?_⟩
  decide

/-- C8 amended: every call to the singleton metaclass acquires the
mutual-exclusion lock, including calls made after the instance exists (the
check-and-create step always runs inside the critical section; there is no
lock-free fast path); a call made after the instance exists still returns the
existing instance and constructs nothing new. -/
theorem every_call_acquires_lock (s : MetaState) (c : Nat) (a : List Nat)
    (i : Instance) (h : findInstance s.instances c = some i) :
    (metaCall s c a).1.lockAcquisitions = s.lockAcquisitions + 1 ∧
    (metaCall s c a).2 = i ∧
    (metaCall s c a).1.nextId = s.nextId := by
  exact ⟨metaCall_lock s c a, (metaCall_found s c a i h).1,
    (metaCall_found s c a i h).2.2⟩

/-- Witness for C8's amended theorem at a concrete state in which the
instance for class 0 already exists. -/
theorem every_call_acquires_lock_witness :
    (metaCall (metaCall initialMetaState 0 [1]).1 0 [2]).1.lockAcquisitions
        = (metaCall initialMetaState 0 [1]).1.lockAcquisitions + 1 ∧
    (metaCall (metaCall initialMetaState 0 [1]).1 0 [2]).2
        = { id := 0, initArgs := [1] } ∧
    (metaCall (metaCall initialMetaState 0 [1]).1 0 [2]).1.nextId
        = (metaCall initialMetaState 0 [1]).1.nextId :=
  every_call_acquires_lock (metaCall initialMetaState 0 [1]).1 0 [2]
    { id := 0, initArgs := [1] } (by decide)

/-- C10: constructor arguments are ignored after the singleton exists —
calling a class with argument list `a` and then with `b` returns the identical
instance, and (when the first of the two calls is the constructing one) that
instance's state reflects the arguments `a` of the very first construction. -/
theorem constructor_args_ignored_after_first (s : MetaState) (c : Nat)
    (a b : List Nat) :
    (metaCall (metaCall s c a).1 c b).2 = (metaCall s c a).2 ∧
    (findInstance s.instances c = none → ((metaCall s c a).2).initArgs = a) := by
  constructor
  · exact (metaCall_found _ c b _ (metaCall_self s c a)).1
  · intro h
    unfold metaCall
    simp [h]

/-- Witness for C10 at a concrete fresh class with argument lists `[5]` then
`[7]`. -/
theorem constructor_args_ignored_after_first_witness :
    (metaCall (metaCall initialMetaState 0 [5]).1 0 [7]).2
        = (metaCall initialMetaState 0 [5]).2 ∧
    ((metaCall initialMetaState 0 [5]).2).initArgs = [5] := by
  have h := constructor_args_ignored_after_first initialMetaState 0 [5] [7]
  exact ⟨h.1, h.2 (by decide)⟩

/-! ### Entry-point theorems -/

/-- C5: if neither `nvim` nor `vim` is resolvable on the search path, `main`
logs an error and returns exit code 1 before any other logic runs — no
filesystem operation, no prompt, no executed command, the filesystem is
untouched — whatever flags were supplied. -/
theorem preflight_missing_editor (env : Env)
    (h1 : is_installed env.installed "nvim" = false)
    (h2 : is_installed env.installed "vim" = false) :
    (main env).exit = 1 ∧
    (main env).trace.logs
      = [(LogLevel.error, "No variant of vim was found on your system")] ∧
    (main env).trace.fsOps = [] ∧
    (main env).trace.executed = [] ∧
    (main env).trace.prompts = [] ∧
    (main env).fs = env.fs := by
  unfold main
  simp [h1, h2]

/-- Witness for C5 at an environment with no editor and every flag set. -/
theorem preflight_missing_editor_witness :
    (main envNoEditor).exit = 1 ∧
    (main envNoEditor).trace.logs
      = [(LogLevel.error, "No variant of vim was found on your system")] ∧
    (main envNoEditor).trace.fsOps = [] ∧
    (main envNoEditor).trace.executed = [] ∧
    (main envNoEditor).trace.prompts = [] ∧
    (main envNoEditor).fs = envNoEditor.fs :=
  preflight_missing_editor envNoEditor (by decide) (by decide)

/-- C6: with no recognized flags, `main` returns exit code 1, performs no
filesystem operation and leaves the filesystem untouched, and (once the
preflight editor check passes) logs exactly the error instructing the user to
pass `--help`. -/
theorem no_flags_usage_error (env : Env)
    (hl : env.args.list_sessions = false)
    (hr : env.args.remove_session = none)
    (ho : env.args.open_session = none)
    (hs : env.args.the_current_state_of_things = false) :
    (main env).exit = 1 ∧
    (main env).trace.fsOps = [] ∧
    (main env).trace.executed = [] ∧
    (main env).fs = env.fs ∧
    ((is_installed env.installed "nvim" || is_installed env.installed "vim") = true →
      (main env).trace.logs
        = [(LogLevel.error,
            "No arguments give, please use `" ++ Config.package
              ++ " --help` for usage information")]) := by
  unfold main
  cases hv : (is_installed env.installed "nvim" || is_installed env.installed "vim") <;>
    simp [hv, hl, hr, ho, hs]

/-- Witness for C6 at a flagless environment with an editor installed. -/
theorem no_flags_usage_error_witness :
    (main envNoFlags).exit = 1 ∧
    (main envNoFlags).trace.fsOps = [] ∧
    (main envNoFlags).trace.executed = [] ∧
    (main envNoFlags).fs = envNoFlags.fs ∧
    (main envNoFlags).trace.logs
      = [(LogLevel.error,
          "No arguments give, please use `" ++ Config.package
            ++ " --help` for usage information")] := by
  have h := no_flags_usage_error envNoFlags rfl rfl rfl rfl
  exact ⟨h.1, h.2.1, h.2.2.1, h.2.2.2.1, h.2.2.2.2 (by decide)⟩

/-- C2: the override environment variable is named exactly `VIM_SESSIONS`,
and `resolve_sessions_directory` returns its value when it is set and
non-empty, and otherwise (unset or empty) returns
`<home>/.config/vim_sessions`, which is Config's default sessions
directory. -/
theorem vim_sessions_env_var_resolution (envVars : List (String × String))
    (home : Path) :
    Config.vsm_env_var = "VIM_SESSIONS" ∧
    (∀ v, lookupEnv envVars "VIM_SESSIONS" = some v → ¬ v = "" →
      resolve_sessions_directory envVars home = v) ∧
    (lookupEnv envVars "VIM_SESSIONS" = none →
      resolve_sessions_directory envVars home = home ++ "/.config/vim_sessions" ∧
      resolve_sessions_directory envVars home
        = Config.default_sessions_directory home) ∧
    (lookupEnv envVars "VIM_SESSIONS" = some "" →
      resolve_sessions_directory envVars home = home ++ "/.config/vim_sessions" ∧
      resolve_sessions_directory envVars home
        = Config.default_sessions_directory home) := by
  refine ⟨rfl, ?_, ?_, ?_⟩
  · intro v hv hne
    unfold resolve_sessions_directory
    rw [show Config.vsm_env_var = "VIM_SESSIONS" from rfl, hv]
    simp [hne]
  · intro h
    unfold resolve_sessions_directory
    rw [show Config.vsm_env_var = "VIM_SESSIONS" from rfl, h]
    exact ⟨rfl, rfl⟩
  · intro h
    unfold resolve_sessions_directory
    rw [show Config.vsm_env_var = "VIM_SESSIONS" from rfl, h]
    simp [Config.default_sessions_directory]

/-- Witness for C2: the variable set to `/tmp/x`, unset, and set to the empty
string. -/
theorem vim_sessions_env_var_resolution_witness :
    Config.vsm_env_var = "VIM_SESSIONS" ∧
    resolve_sessions_directory [("VIM_SESSIONS", "/tmp/x")] "/h" = "/tmp/x" ∧
    resolve_sessions_directory [] "/h" = "/h/.config/vim_sessions" ∧
    resolve_sessions_directory [("VIM_SESSIONS", "")] "/h"
      = "/h/.config/vim_sessions" := by
  have h1 := vim_sessions_env_var_resolution [("VIM_SESSIONS", "/tmp/x")] "/h"
  have h2 := vim_sessions_env_var_resolution ([] : List (String × String)) "/h"
  have h3 := vim_sessions_env_var_resolution [("VIM_SESSIONS", "")] "/h"
  exact ⟨h1.1, h1.2.1 "/tmp/x" (by decide) (by decide),
    (h2.2.2.1 (by decide)).1, (h3.2.2.2 (by decide)).1⟩

lemma open_session_ok_mem (fs : List Path) (dir : Path) (name : String) (p : Path)
    (h : (open_session fs dir name).1 = Except.ok p) : p ∈ fs := by
  unfold open_session at h
  by_cases h1 : name ∈ fs
  · simp [h1] at h
    rw [← h]
    exact h1
  · by_cases h2 : dir ++ "/" ++ name ∈ fs
    · simp [h1, h2] at h
      rw [← h]
      exact h2
    · simp [h1, h2] at h

lemma open_session_ops_no_unlink (fs : List Path) (dir : Path) (name : String) :
    ∀ q : Path, FsOp.unlink q ∉ (open_session fs dir name).2 := by
  intro q
  unfold open_session
  by_cases h1 : name ∈ fs <;> by_cases h2 : dir ++ "/" ++ name ∈ fs <;>
    simp [h1, h2]

/-- C1: when `removeSession` resolves a name successfully, the resolved path
is an existing file, no unlink is among the filesystem operations
`removeSession` itself performed — the file still exists when it returns —
and the deletion is the separate step taken by the entry point afterwards:
`main` ends with the resolved file erased from the filesystem, the unlink
recorded in its trace, and exit code 0. -/
theorem remove_session_resolves_without_deleting (env : Env) (name : String)
    (p : Path)
    (hv : (is_installed env.installed "nvim" || is_installed env.installed "vim")
      = true)
    (hl : env.args.list_sessions = false)
    (hr : env.args.remove_session = some name)
    (hok : (remove_session env.fs
        (resolve_sessions_directory env.envVars env.home) name).1 = Except.ok p) :
    p ∈ env.fs ∧
    (∀ q : Path, FsOp.unlink q ∉ (remove_session env.fs
        (resolve_sessions_directory env.envVars env.home) name).2) ∧
    (main env).fs = env.fs.erase p ∧
    FsOp.unlink p ∈ (main env).trace.fsOps ∧
    (main env).exit = 0 := by
  have hok2 : (open_session env.fs
      (resolve_sessions_directory env.envVars env.home) name).1 = Except.ok p := hok
  refine ⟨open_session_ok_mem _ _ _ _ hok2,
    fun q => open_session_ops_no_unlink _ _ _ q, ?_⟩
  unfold main
  simp [hv, hl, hr, hok]

/-- Witness for C1: removing the existing session `a.vim`. -/
theorem remove_session_resolves_without_deleting_witness :
    "/h/.config/vim_sessions/a.vim" ∈ envRemove.fs ∧
    (∀ q : Path, FsOp.unlink q ∉ (remove_session envRemove.fs
        (resolve_sessions_directory envRemove.envVars envRemove.home) "a.vim").2) ∧
    (main envRemove).fs = envRemove.fs.erase "/h/.config/vim_sessions/a.vim" ∧
    FsOp.unlink "/h/.config/vim_sessions/a.vim" ∈ (main envRemove).trace.fsOps ∧
    (main envRemove).exit = 0 :=
  remove_session_resolves_without_deleting envRemove "a.vim"
    "/h/.config/vim_sessions/a.vim" (by decide) (by decide) (by decide) (by rfl)

/-- C3: on `--open <name>`, when resolution succeeds with path `p` the entry
point executes exactly the command `nvim -S <p>` and its exit code mirrors
the shell result — 0 when the command succeeds, 1 with a logged error when it
fails; when resolution fails, it logs the error, executes nothing, and exits
1. -/
theorem open_branch_executes_editor (env : Env) (name : String)
    (hv : (is_installed env.installed "nvim" || is_installed env.installed "vim")
      = true)
    (hl : env.args.list_sessions = false)
    (hr : env.args.remove_session = none)
    (ho : env.args.open_session = some name) :
    (∀ p, (open_session env.fs
        (resolve_sessions_directory env.envVars env.home) name).1 = Except.ok p →
      (main env).trace.executed = ["nvim -S " ++ p] ∧
      (env.shellOk ("nvim -S " ++ p) = true → (main env).exit = 0) ∧
      (env.shellOk ("nvim -S " ++ p) = false →
        (main env).exit = 1 ∧
        (LogLevel.error, executionFailureMessage ("nvim -S " ++ p))
          ∈ (main env).trace.logs)) ∧
    (∀ e, (open_session env.fs
        (resolve_sessions_directory env.envVars env.home) name).1
          = Except.error e →
      (main env).exit = 1 ∧
      (LogLevel.error, sessionErrorMessage e) ∈ (main env).trace.logs ∧
      (main env).trace.executed = []) := by
  constructor
  · intro p hp
    unfold main
    cases hsh : env.shellOk ("nvim -S " ++ p) <;>
      simp [hv, hl, hr, ho, hp, hsh]
  · intro e he
    unfold main
    simp [hv, hl, hr, ho, he]

/-- Witness for C3: opening the existing session `a.vim` with a succeeding
shell. -/
theorem open_branch_executes_editor_witness :
    (main envOpen).trace.executed
      = ["nvim -S " ++ "/h/.config/vim_sessions/a.vim"] ∧
    (main envOpen).exit = 0 := by
  have h := (open_branch_executes_editor envOpen "a.vim" (by decide) (by decide)
      (by decide) (by decide)).1 "/h/.config/vim_sessions/a.vim" (by rfl)
  exact ⟨h.1, h.2.1 (by decide)⟩

/-- C4: once the preflight editor check passes, `main` is exactly the single
branch selected by the fixed priority order (list, then remove, then open,
then status, then the no-arguments fallback) — only the first matching flag's
branch executes; in particular, when the list flag is set, no unlink and no
shell command happens even if remove/open arguments were also supplied. -/
theorem flags_checked_in_priority_order (env : Env)
    (hv : (is_installed env.installed "nvim" || is_installed env.installed "vim")
      = true) :
    main env = runBranch env (selectBranch env.args) ∧
    (env.args.list_sessions = true →
      (main env).trace.executed = [] ∧
      ∀ q : Path, FsOp.unlink q ∉ (main env).trace.fsOps) := by
  have hmain : main env = runBranch env (selectBranch env.args) := by
    cases hl : env.args.list_sessions <;>
      cases hr : env.args.remove_session <;>
        cases ho : env.args.open_session <;>
          cases hs : env.args.the_current_state_of_things <;>
            simp [main, runBranch, selectBranch, hv, hl, hr, ho, hs]
  refine ⟨hmain, fun hl => ?_⟩
  rw [hmain]
  simp [selectBranch, hl, runBranch]

/-- Witness for C4 at an environment supplying every flag at once: the list
branch alone runs. -/
theorem flags_checked_in_priority_order_witness :
    main envListAndRemove
      = runBranch envListAndRemove (selectBranch envListAndRemove.args) ∧
    (main envListAndRemove).trace.executed = [] ∧
    (∀ q : Path, FsOp.unlink q ∉ (main envListAndRemove).trace.fsOps) := by
  have h := flags_checked_in_priority_order envListAndRemove (by decide)
  exact ⟨h.1, (h.2 (by decide)).1, (h.2 (by decide)).2⟩

/-- C9: evaluated at a `--remove a.vim` invocation with the session present,
`main` unlinks the file and exits 0 while issuing no confirmation prompt at
all (the trace's prompt list is empty — `vsm/main.py` contains no prompt
call; the yes/no prompt is only a TODO comment), contradicting the claim that
deletion happens only after user confirmation. -/
theorem remove_deletes_without_confirmation :
    (main envRemove).trace.prompts = [] ∧
    FsOp.unlink "/h/.config/vim_sessions/a.vim" ∈ (main envRemove).trace.fsOps ∧
    (main envRemove).exit = 0 ∧
    (main envRemove).fs = [] := by
  decide

end Vsm
